import Mathlib

/-!
Shallow embedding of the live-session core of `src/components/LiveSession.tsx`
(ana.ai).  The component state (React `useState` values and `useRef` cells)
becomes a Lean structure; each event handler of the source (`cleanup`,
`handleStartSession`, the transport callbacks `onopen` / `onmessage` /
`onclose` / `onerror`) becomes a pure state-transition function; the pure
helpers (`resample`, the float→int16 stage of `onaudioprocess`, the
frame-capture sizing of the 1-FPS interval) become Lean functions.
Times and sample values are rationals; handles are booleans ("held or not");
scheduled playback sources are identified by a fresh counter.
-/

namespace Ana

/-- `SessionStatus` from LiveSession.tsx line 85:
`type SessionStatus = idle | connecting | active | error` (string union). -/
inductive Status where
  | idle
  | connecting
  | active
  | error
  deriving DecidableEq, Repr

/-- Role of a transcription entry (`src/types.ts`): a string union of user and model. -/
inductive Role where
  | user
  | model
  deriving DecidableEq, Repr

/-- `TranscriptionEntry` from `src/types.ts`: role, text, timestamp. -/
structure TranscriptionEntry where
  role : Role
  text : String
  timestamp : Int
  deriving DecidableEq, Repr

/-- The component state of `LiveSession` (lines 88-116): the `useState`
values and the `useRef` cells that the claims are about.  Media handles
(streams, audio contexts, timers, the session promise) are modelled as
booleans recording whether the ref currently holds a live resource.
`activeSources` is `activeSourcesRef` (a JS `Set` of `AudioBufferSourceNode`s,
modelled by fresh numeric ids drawn from `sourceCounter`); `stoppedSources`
records which sources have received a `stop()` call; `startedAt` is the log
of `src.start(...)` invocations (the scheduled start times, in order). -/
structure SessionState where
  status : Status
  errorMsg : Option String
  transcriptions : List TranscriptionEntry
  liveInput : String
  liveOutput : String
  currentInput : String
  currentOutput : String
  isModelThinking : Bool
  isScreenShared : Bool
  nextStartTime : ℚ
  activeSources : List Nat
  stoppedSources : List Nat
  sourceCounter : Nat
  startedAt : List ℚ
  micStream : Bool
  screenStream : Bool
  inputCtxOpen : Bool
  outputCtxOpen : Bool
  frameTimer : Bool
  volumeLoop : Bool
  sessionHandle : Bool
  deriving DecidableEq, Repr

/-- The initial component state: `useState` starts at idle, empty transcript,
`nextStartTimeRef = 0`, empty source set, every ref `null` (lines 88-116). -/
def initState : SessionState :=
  { status := Status.idle
    errorMsg := none
    transcriptions := []
    liveInput := ""
    liveOutput := ""
    currentInput := ""
    currentOutput := ""
    isModelThinking := false
    isScreenShared := false
    nextStartTime := 0
    activeSources := []
    stoppedSources := []
    sourceCounter := 0
    startedAt := []
    micStream := false
    screenStream := false
    inputCtxOpen := false
    outputCtxOpen := false
    frameTimer := false
    volumeLoop := false
    sessionHandle := false }

/-- `cleanup` (lines 125-149): set status `idle`, clear the live and pending
transcription buffers, clear the frame interval and the animation frame, stop
and drop both media streams, `stop()` every active source and clear the set,
close both audio contexts, drop the session promise, reset the screen-share
and thinking flags.  It does NOT touch `nextStartTimeRef`. -/
def cleanup (st : SessionState) : SessionState :=
  { st with
      status := Status.idle
      liveInput := ""
      liveOutput := ""
      currentInput := ""
      currentOutput := ""
      frameTimer := false
      volumeLoop := false
      screenStream := false
      micStream := false
      stoppedSources := st.stoppedSources ++ st.activeSources
      activeSources := []
      inputCtxOpen := false
      outputCtxOpen := false
      sessionHandle := false
      isScreenShared := false
      isModelThinking := false }

/-- A downlink `LiveServerMessage` as the handler at lines 268-295 reads it:
the optional audio chunk (`serverContent.modelTurn.parts[0].inlineData.data`,
represented by the duration of its decoded buffer), the optional input and
output transcription texts, and the `turnComplete` flag.  The wire protocol
also carries an interruption signal (`serverContent.interrupted`); it is
included here because the remote engine can send it, even though the handler
at lines 268-295 never reads it. -/
structure ServerMessage where
  audioDuration : Option ℚ
  inputTranscriptionText : Option String
  outputTranscriptionText : Option String
  turnComplete : Bool
  interrupted : Bool
  deriving DecidableEq, Repr

/-- Truthiness of `s.trim()` in JS (lines 284-285): true iff the string has a
character that is not whitespace. -/
def hasContent (s : String) : Bool :=
  s.data.any (fun c => !c.isWhitespace)

/-- The `onmessage` callback (lines 268-295).  `t` is
`outputAudioCtx.currentTime` when the message is handled, `now` is
`Date.now()`.  In source order: (1) if the message carries audio and the
output context is open, raise the cursor to `max(cursor, currentTime)`,
`src.start(cursor)`, advance the cursor by the buffer duration and add the
new source to `activeSourcesRef`; (2) append an input-transcription delta to
`currentInputRef` / `liveInput`; (3) append an output-transcription delta to
`currentOutputRef` / `liveOutput` and set the thinking flag; (4) on
`turnComplete`, push a user entry if `userText.trim()` is truthy, then a
model entry if `modelText.trim()` is truthy, and clear both buffers.
The handler reads no other field of the message. -/
def onmessage (t : ℚ) (now : Int) (m : ServerMessage) (st : SessionState) :
    SessionState :=
  let st1 :=
    match m.audioDuration with
    | some d =>
      if st.outputCtxOpen then
        let c := max st.nextStartTime t
        { st with
            nextStartTime := c + d
            startedAt := st.startedAt ++ [c]
            activeSources := st.activeSources ++ [st.sourceCounter]
            sourceCounter := st.sourceCounter + 1 }
      else st
    | none => st
  let st2 :=
    match m.inputTranscriptionText with
    | some s =>
      { st1 with
          currentInput := st1.currentInput ++ s
          liveInput := st1.currentInput ++ s }
    | none => st1
  let st3 :=
    match m.outputTranscriptionText with
    | some s =>
      { st2 with
          isModelThinking := true
          currentOutput := st2.currentOutput ++ s
          liveOutput := st2.currentOutput ++ s }
    | none => st2
  if m.turnComplete then
    let userEntries :=
      if hasContent st3.currentInput then
        [{ role := Role.user, text := st3.currentInput, timestamp := now }]
      else []
    let modelEntries :=
      if hasContent st3.currentOutput then
        [{ role := Role.model, text := st3.currentOutput, timestamp := now }]
      else []
    { st3 with
        transcriptions := st3.transcriptions ++ userEntries ++ modelEntries
        currentInput := ""
        currentOutput := ""
        liveInput := ""
        liveOutput := ""
        isModelThinking := false }
  else st3

/-- The `onclose` callback (line 296): `() => cleanup()`. -/
def onclose (st : SessionState) : SessionState :=
  cleanup st

/-- The `onerror` callback (line 297): it only sets the status to error and nothing
else — no resource is touched. -/
def onerror (st : SessionState) : SessionState :=
  { st with status := Status.error }

/-- The `onopen` callback (lines 230-267): set status `active`, start the
script-processor capture path, start the 1-FPS frame interval, start the
volume-meter animation loop. -/
def onopen (st : SessionState) : SessionState :=
  { st with status := Status.active, frameTimer := true, volumeLoop := true }

/-- Natural end of playback of a scheduled `AudioBufferSourceNode`.
The source assigns no `onended` handler and registers no `ended` listener on
the nodes it creates at line 273, so this DOM event leaves the component
state unchanged. -/
def onSourceEnded (_id : Nat) (st : SessionState) : SessionState :=
  st

/-- Outcome of the external acquisitions attempted by `handleStartSession`:
whether `getUserMedia` resolves, whether `getDisplayMedia` resolves, and
whether `ai.live.connect` succeeds. -/
structure StartEnv where
  micGranted : Bool
  screenGranted : Bool
  connectOk : Bool
  deriving DecidableEq, Repr

/-- `handleStartSession` (lines 180-311).  Line 181: return at once if status
is connecting.  Otherwise `await cleanup()`, clear the error message, set
status connecting, then: if the microphone is refused the outer catch
(lines 306-310) sets status error with message "Connection failed"; if
screen share is refused the inner catch (lines 194-199) stops the mic tracks
and sets status idle; otherwise the stream refs are set, the screen-share
flag raised, both audio contexts created, and the connect call made — on a
connect throw the outer catch again sets error / "Connection failed",
else the session promise is stored.  No failure path calls `cleanup`. -/
def handleStartSession (env : StartEnv) (st : SessionState) : SessionState :=
  if st.status = Status.connecting then st
  else
    let s1 := cleanup st
    let s2 := { s1 with errorMsg := none, status := Status.connecting }
    if env.micGranted = false then
      { s2 with status := Status.error, errorMsg := some "Connection failed" }
    else if env.screenGranted = false then
      { s2 with status := Status.idle }
    else
      let s3 :=
        { s2 with
            micStream := true
            screenStream := true
            isScreenShared := true
            inputCtxOpen := true
            outputCtxOpen := true }
      if env.connectOk = false then
        { s3 with status := Status.error, errorMsg := some "Connection failed" }
      else
        { s3 with sessionHandle := true }

/-- Output length of the interpolation loop of `resample` (line 154):
`Math.round(data.length / ratio)` with `ratio = fromRate / toRate`.
JS `Math.round x = ⌊x + 1/2⌋`, which is the `round` function of Mathlib on ℚ. -/
def resampleLength (len : Nat) (fromRate toRate : ℚ) : Nat :=
  (round ((len : ℚ) / (fromRate / toRate))).toNat

/-- Source index read for output position `i` (lines 157-158):
`index = Math.floor(i * ratio)`. -/
def resampleIndex (fromRate toRate : ℚ) (i : Nat) : Nat :=
  (⌊(i : ℚ) * (fromRate / toRate)⌋).toNat

/-- Body of the interpolation loop of `resample` (lines 156-162) at output
position `i`: linear interpolation between `data[index]` and `data[index+1]`
when `index + 1 < data.length`, else `data[index]`.  Out-of-range reads
(which the loop never performs, see the bounds theorem) default to 0. -/
def resampleAt (data : List ℚ) (fromRate toRate : ℚ) (i : Nat) : ℚ :=
  let p : ℚ := (i : ℚ) * (fromRate / toRate)
  let idx := (⌊p⌋).toNat
  let frac := p - ((⌊p⌋ : ℤ) : ℚ)
  if idx + 1 < data.length then
    data.getD idx 0 * (1 - frac) + data.getD (idx + 1) 0 * frac
  else
    data.getD idx 0

/-- `resample(data, fromRate, toRate)` (lines 151-164): if
`|fromRate - toRate| < 1` return the input unchanged, otherwise run the
interpolation loop. -/
def resample (data : List ℚ) (fromRate toRate : ℚ) : List ℚ :=
  if |fromRate - toRate| < 1 then data
  else
    (List.range (resampleLength data.length fromRate toRate)).map
      (resampleAt data fromRate toRate)

/-- JS truncation toward zero (step "ToIntegerOrInfinity" of the ECMAScript
ToInt16 conversion applied when a number is stored into an `Int16Array`). -/
def jsTrunc (q : ℚ) : Int :=
  if 0 ≤ q then ⌊q⌋ else ⌈q⌉

/-- Reduction of an integer into the signed 16-bit range by the ECMAScript
ToInt16 rule: take the residue modulo 2^16 and map residues ≥ 2^15 down by
2^16. -/
def wrap16 (n : Int) : Int :=
  if n % 65536 < 32768 then n % 65536 else n % 65536 - 65536

/-- The float→int16 stage of `onaudioprocess` (line 238):
`int16[i] = resampled[i] * 32768` stores the scaled sample into an
`Int16Array`, which truncates toward zero and wraps modulo 2^16 (ECMAScript
ToInt16); no clamping is applied by the source. -/
def floatToInt16 (s : ℚ) : Int :=
  wrap16 (jsTrunc (s * 32768))

/-- The frame-capture sizing of the 1-FPS interval (lines 248-254): when the
source video reports dimensions `vW × vH` (both nonzero), the canvas is set
to width 1024 and height `1024 * (vH / vW)` (the IDL assignment to
`canvas.height` truncates, which for naturals is `1024 * vH / vW`); when a
dimension is still 0 the tick skips encoding. -/
def frameDims (vW vH : Nat) : Option (Nat × Nat) :=
  if vW ≠ 0 ∧ vH ≠ 0 then some (1024, 1024 * vH / vW) else none

/-- A pure-audio downlink message carrying a decoded chunk of duration `d`. -/
def audioMsg (d : ℚ) : ServerMessage :=
  { audioDuration := some d
    inputTranscriptionText := none
    outputTranscriptionText := none
    turnComplete := false
    interrupted := false }

/-- Deliver a sequence of audio chunks to the message handler, chunk `k`
arriving when the output clock reads `tₖ` and decoding to duration `dₖ`. -/
def playChunks (msgs : List (ℚ × ℚ)) (st : SessionState) : SessionState :=
  msgs.foldl (fun s td => onmessage td.1 0 (audioMsg td.2) s) st

/-- The start times the scheduling recurrence of lines 271-274 produces from
cursor `c`: chunk `(t, d)` starts at `max c t` and leaves the cursor at
`max c t + d`. -/
def schedStarts (c : ℚ) : List (ℚ × ℚ) → List ℚ
  | [] => []
  | (t, d) :: rest => max c t :: schedStarts (max c t + d) rest

/-- A downlink message carrying only the interruption flag (barge-in). -/
def interruptMsg : ServerMessage :=
  { audioDuration := none
    inputTranscriptionText := none
    outputTranscriptionText := none
    turnComplete := false
    interrupted := true }

/-- A downlink message carrying one output-transcription delta. -/
def outputDeltaMsg (s : String) : ServerMessage :=
  { audioDuration := none
    inputTranscriptionText := none
    outputTranscriptionText := some s
    turnComplete := false
    interrupted := false }

/-- A bare turn-completion message. -/
def turnCompleteMsg : ServerMessage :=
  { audioDuration := none
    inputTranscriptionText := none
    outputTranscriptionText := none
    turnComplete := true
    interrupted := false }

/-- A concrete state mid-session: active, every resource held, one scheduled
playback source (id 0) in flight, playback cursor at 5 s. -/
def midSessionState : SessionState :=
  { initState with
      status := Status.active
      micStream := true
      screenStream := true
      inputCtxOpen := true
      outputCtxOpen := true
      frameTimer := true
      volumeLoop := true
      sessionHandle := true
      activeSources := [0]
      sourceCounter := 1
      nextStartTime := 5 }

/-!
Helper lemmas shared by the claim theorems.
-/

/-- Effect of an audio-only message on the state (lines 269-275): the cursor
is raised to `max cursor t`, that value is logged as the scheduled start, the
cursor advances by the buffer duration, and the fresh source id joins the
active set. -/
theorem onmessage_audio (t : ℚ) (now : Int) (d : ℚ) (st : SessionState)
    (h : st.outputCtxOpen = true) :
    onmessage t now (audioMsg d) st =
      { st with
          nextStartTime := max st.nextStartTime t + d
          startedAt := st.startedAt ++ [max st.nextStartTime t]
          activeSources := st.activeSources ++ [st.sourceCounter]
          sourceCounter := st.sourceCounter + 1 } := by
  simp [onmessage, audioMsg, h]

/-- Delivering a chunk sequence appends exactly the starts of the scheduling
recurrence to the start log. -/
theorem playChunks_startedAt (msgs : List (ℚ × ℚ)) (st : SessionState)
    (h : st.outputCtxOpen = true) :
    (playChunks msgs st).startedAt
      = st.startedAt ++ schedStarts st.nextStartTime msgs := by
  induction msgs generalizing st with
  | nil => simp [playChunks, schedStarts]
  | cons td rest ih =>
    obtain ⟨t, d⟩ := td
    have hstep : playChunks ((t, d) :: rest) st
        = playChunks rest (onmessage t 0 (audioMsg d) st) := by
      simp [playChunks]
    rw [hstep, onmessage_audio t 0 d st h, ih _ (by simp [h])]
    simp [schedStarts]

/-- Start `k` of the scheduling recurrence is at least the initial cursor
plus the total duration of the chunks before it. -/
theorem schedStarts_ge (msgs : List (ℚ × ℚ)) (c : ℚ) (k : Nat)
    (hk : k < msgs.length) :
    c + ((msgs.take k).map Prod.snd).sum ≤ (schedStarts c msgs).getD k 0 := by
  induction msgs generalizing c k with
  | nil => simp at hk
  | cons td rest ih =>
    obtain ⟨t, d⟩ := td
    cases k with
    | zero => simp [schedStarts, le_max_left]
    | succ k =>
      have hk2 : k < rest.length := by simpa using hk
      have h1 := ih (max c t + d) k hk2
      have h2 : c + d ≤ max c t + d := by
        have := le_max_left c t
        linarith
      simp only [schedStarts, List.getD_cons_succ, List.take_succ_cons,
        List.map_cons, List.sum_cons]
      linarith

/-- When the second chunk arrives before the first finishes, it starts
exactly at the end of the first. -/
theorem schedStarts_second_back_to_back (c t1 t2 d1 d2 : ℚ)
    (h : t2 ≤ max c t1 + d1) :
    schedStarts c [(t1, d1), (t2, d2)] = [max c t1, max c t1 + d1] := by
  simp [schedStarts, max_eq_left h]

/-- Every index the interpolation loop computes is inside the input. -/
theorem resampleIndex_lt (len : Nat) (fromRate toRate : ℚ)
    (hf : 0 < fromRate) (ht : 0 < toRate) (i : Nat)
    (hi : i < resampleLength len fromRate toRate) :
    resampleIndex fromRate toRate i < len := by
  have hq : 0 < fromRate / toRate := div_pos hf ht
  have h1 : (i : ℤ) < round ((len : ℚ) / (fromRate / toRate)) := by
    unfold resampleLength at hi
    omega
  have h2 : ((i : ℚ) + 1) ≤ (len : ℚ) / (fromRate / toRate) + 1/2 := by
    rw [round_eq] at h1
    have hfl := Int.floor_le ((len : ℚ) / (fromRate / toRate) + 1/2)
    have : ((i : ℤ) + 1 : ℚ)
        ≤ ((⌊(len : ℚ) / (fromRate / toRate) + 1/2⌋ : ℤ) : ℚ) := by
      exact_mod_cast Int.add_one_le_of_lt h1
    push_cast at this
    linarith
  have hlen : (len : ℚ) / (fromRate / toRate) * (fromRate / toRate) = (len : ℚ) :=
    div_mul_cancel₀ _ (ne_of_gt hq)
  have h3 : (i : ℚ) * (fromRate / toRate) < (len : ℚ) := by
    have hmul : ((i : ℚ) + 1/2) * (fromRate / toRate)
        ≤ ((len : ℚ) / (fromRate / toRate)) * (fromRate / toRate) := by
      apply mul_le_mul_of_nonneg_right _ (le_of_lt hq)
      linarith
    rw [hlen] at hmul
    nlinarith
  have h4 : ⌊(i : ℚ) * (fromRate / toRate)⌋ < (len : ℤ) := by
    rw [Int.floor_lt]
    exact_mod_cast h3
  have h0 : 0 ≤ ⌊(i : ℚ) * (fromRate / toRate)⌋ :=
    Int.floor_nonneg.mpr (by positivity)
  unfold resampleIndex
  omega

/-- Truncation toward zero of an integer value is that integer. -/
theorem jsTrunc_intCast (n : ℤ) : jsTrunc (n : ℚ) = n := by
  unfold jsTrunc
  split <;> simp

/-!
The claims.
-/

/-- C1 counterexample: the claim says that on an interruption signal the
message handler stops every handle in the active set, clears the set and
resets the cursor to 0.  At this concrete mid-session state (one active
source, cursor 5) the handler leaves the set and the cursor exactly as they
were and stops nothing, so the claim is false on the code. -/
theorem C1_interruption_not_handled_ce :
    (onmessage 2 0 interruptMsg midSessionState).activeSources = [0]
    ∧ (onmessage 2 0 interruptMsg midSessionState).nextStartTime = 5
    ∧ (onmessage 2 0 interruptMsg midSessionState).stoppedSources = []
    ∧ ¬((onmessage 2 0 interruptMsg midSessionState).activeSources = []
        ∧ (onmessage 2 0 interruptMsg midSessionState).nextStartTime = 0) := by
  refine ⟨rfl, by norm_num [onmessage, interruptMsg, midSessionState, initState],
    rfl, ?_⟩
  rintro ⟨h, -⟩
  simp [onmessage, interruptMsg, midSessionState, initState] at h

/-- C1 amended: the message handler reads only the audio part, the two
transcription deltas and the turn-complete flag; a message carrying none of
those — in particular a pure interruption signal — leaves the whole component
state unchanged: no source is stopped, the active set is not cleared, the
cursor is not reset. -/
theorem C1_interruption_ignored (t : ℚ) (now : Int) (m : ServerMessage)
    (st : SessionState)
    (ha : m.audioDuration = none)
    (hi : m.inputTranscriptionText = none)
    (ho : m.outputTranscriptionText = none)
    (ht : m.turnComplete = false) :
    onmessage t now m st = st := by
  simp [onmessage, ha, hi, ho, ht]

/-- C1 witness: a concrete interruption-only message on a state with one
active source changes nothing. -/
theorem C1_interruption_ignored_witness :
    onmessage 7 3 interruptMsg { initState with activeSources := [4] }
      = { initState with activeSources := [4] } :=
  C1_interruption_ignored 7 3 interruptMsg _ rfl rfl rfl rfl

/-- C2 counterexample: at a concrete active state holding every resource,
the transport error callback sets the state to Error but releases nothing —
the mic and screen streams, both audio contexts, both timers and the
scheduled source all remain held, contrary to the claim that all resources
are released via cleanup. -/
theorem C2_error_keeps_resources_ce :
    (onerror midSessionState).status = Status.error
    ∧ (onerror midSessionState).micStream = true
    ∧ (onerror midSessionState).screenStream = true
    ∧ (onerror midSessionState).inputCtxOpen = true
    ∧ (onerror midSessionState).outputCtxOpen = true
    ∧ (onerror midSessionState).frameTimer = true
    ∧ (onerror midSessionState).volumeLoop = true
    ∧ (onerror midSessionState).activeSources = [0]
    ∧ ¬((onerror midSessionState).micStream = false) := by
  refine ⟨rfl, rfl, rfl, rfl, rfl, rfl, rfl, rfl, ?_⟩
  simp [onerror, midSessionState, initState]

/-- C2 amended: on an unrecoverable failure the state does become Error and
(on the connect-failure path) the message "Connection failed" is surfaced,
but no resource is released: the error callback preserves every resource
field, and the failed-connect path of start leaves the freshly acquired
streams and audio contexts held. -/
theorem C2_error_paths_do_not_release (st : SessionState) :
    ((onerror st).status = Status.error
      ∧ (onerror st).micStream = st.micStream
      ∧ (onerror st).screenStream = st.screenStream
      ∧ (onerror st).inputCtxOpen = st.inputCtxOpen
      ∧ (onerror st).outputCtxOpen = st.outputCtxOpen
      ∧ (onerror st).frameTimer = st.frameTimer
      ∧ (onerror st).volumeLoop = st.volumeLoop
      ∧ (onerror st).activeSources = st.activeSources
      ∧ (onerror st).sessionHandle = st.sessionHandle)
    ∧ (∀ env : StartEnv, st.status ≠ Status.connecting →
        env.micGranted = true → env.screenGranted = true →
        env.connectOk = false →
        (handleStartSession env st).status = Status.error
          ∧ (handleStartSession env st).errorMsg = some "Connection failed"
          ∧ (handleStartSession env st).micStream = true
          ∧ (handleStartSession env st).screenStream = true
          ∧ (handleStartSession env st).inputCtxOpen = true
          ∧ (handleStartSession env st).outputCtxOpen = true) := by
  constructor
  · exact ⟨rfl, rfl, rfl, rfl, rfl, rfl, rfl, rfl, rfl⟩
  · intro env hst hm hs hc
    simp [handleStartSession, hst, hm, hs, hc, cleanup]

/-- C2 witness: a failed connect from the initial state ends in Error with
the microphone stream still held. -/
theorem C2_error_paths_do_not_release_witness :
    (handleStartSession
        { micGranted := true, screenGranted := true, connectOk := false }
        initState).status = Status.error
    ∧ (handleStartSession
        { micGranted := true, screenGranted := true, connectOk := false }
        initState).micStream = true := by
  have h := (C2_error_paths_do_not_release initState).2
    { micGranted := true, screenGranted := true, connectOk := false }
    (by simp [initState]) rfl rfl rfl
  exact ⟨h.1, h.2.2.1⟩

/-- C3 counterexample: from a concrete Active state, start is not a no-op:
it tears the session down (the in-flight source is force-stopped and the set
cleared) and begins a new one, leaving the state Connecting — contrary to
the claim that start is a no-op from Active. -/
theorem C3_start_from_active_not_noop_ce :
    (handleStartSession
        { micGranted := true, screenGranted := true, connectOk := true }
        midSessionState).status = Status.connecting
    ∧ (handleStartSession
        { micGranted := true, screenGranted := true, connectOk := true }
        midSessionState).activeSources = []
    ∧ (handleStartSession
        { micGranted := true, screenGranted := true, connectOk := true }
        midSessionState).stoppedSources = [0]
    ∧ ¬(handleStartSession
        { micGranted := true, screenGranted := true, connectOk := true }
        midSessionState = midSessionState) := by
  refine ⟨rfl, rfl, rfl, ?_⟩
  intro h
  have := congrArg SessionState.status h
  simp [handleStartSession, cleanup, midSessionState, initState] at this

/-- C3 amended: start is a no-op only while the state is Connecting; from
any other state — Idle, Error, and also Active — it first runs cleanup
(clearing the active sources) and begins a new session. -/
theorem C3_start_noop_only_when_connecting (env : StartEnv) (st : SessionState) :
    (st.status = Status.connecting → handleStartSession env st = st)
    ∧ (st.status ≠ Status.connecting →
        env.micGranted = true → env.screenGranted = true → env.connectOk = true →
        (handleStartSession env st).status = Status.connecting
          ∧ (handleStartSession env st).sessionHandle = true
          ∧ (handleStartSession env st).activeSources = []
          ∧ (handleStartSession env st).stoppedSources
              = st.stoppedSources ++ st.activeSources
          ∧ (handleStartSession env st).transcriptions = st.transcriptions) := by
  constructor
  · intro h
    simp [handleStartSession, h]
  · intro hst hm hs hc
    simp [handleStartSession, hst, hm, hs, hc, cleanup]

/-- C3 witness: from a concrete Connecting state start changes nothing. -/
theorem C3_start_noop_only_when_connecting_witness :
    handleStartSession
        { micGranted := true, screenGranted := true, connectOk := true }
        { initState with status := Status.connecting }
      = { initState with status := Status.connecting } :=
  (C3_start_noop_only_when_connecting _ _).1 rfl

/-- C4: with the output context open, every chunk is scheduled at
`max cursor clock` and advances the cursor by its duration; over a whole
uninterrupted sequence starting from a nonnegative cursor, the start of chunk
k is at least the sum of the durations of the chunks before it; and two
back-to-back chunks of 500 ms and 300 ms give the second a start equal to
the start of the first plus 500 ms. -/
theorem C4_gapless_scheduling :
    (∀ (t : ℚ) (now : Int) (d : ℚ) (st : SessionState),
      st.outputCtxOpen = true →
      (onmessage t now (audioMsg d) st).startedAt
          = st.startedAt ++ [max st.nextStartTime t]
        ∧ (onmessage t now (audioMsg d) st).nextStartTime
          = max st.nextStartTime t + d)
    ∧ (∀ (msgs : List (ℚ × ℚ)) (st : SessionState) (k : Nat),
      st.outputCtxOpen = true → 0 ≤ st.nextStartTime → st.startedAt = [] →
      k < msgs.length →
      ((msgs.take k).map Prod.snd).sum ≤ (playChunks msgs st).startedAt.getD k 0)
    ∧ (∀ (st : SessionState) (t1 t2 : ℚ),
      st.outputCtxOpen = true → st.startedAt = [] →
      t2 ≤ max st.nextStartTime t1 + 1/2 →
      (playChunks [(t1, 1/2), (t2, 3/10)] st).startedAt
        = [max st.nextStartTime t1, max st.nextStartTime t1 + 1/2]) := by
  refine ⟨?_, ?_, ?_⟩
  · intro t now d st h
    rw [onmessage_audio t now d st h]
    exact ⟨rfl, rfl⟩
  · intro msgs st k h hc hsa hk
    rw [playChunks_startedAt msgs st h, hsa, List.nil_append]
    have := schedStarts_ge msgs st.nextStartTime k hk
    linarith
  · intro st t1 t2 h hsa ht
    rw [playChunks_startedAt _ st h, hsa, List.nil_append,
      schedStarts_second_back_to_back _ _ _ _ _ ht]

/-- C4 witness: chunks of 500 ms and 300 ms arriving back to back on a fresh
output context start at 0 and at 0 + 1/2. -/
theorem C4_gapless_scheduling_witness :
    (playChunks [((0 : ℚ), (1 : ℚ)/2), (1/5, 3/10)]
        { initState with outputCtxOpen := true }).startedAt = [0, 0 + 1/2] := by
  have h := C4_gapless_scheduling.2.2 { initState with outputCtxOpen := true }
    0 (1/5) rfl rfl (by norm_num [initState])
  simpa [initState] using h

/-- C5 counterexample: a source that finishes playing naturally is NOT
removed from the active set — the code registers no end-of-playback
listener — contrary to the claim that every handle is removed on natural
completion. -/
theorem C5_natural_end_no_removal_ce :
    (onSourceEnded 0 midSessionState).activeSources = [0]
    ∧ ¬((onSourceEnded 0 midSessionState).activeSources = []) := by
  refine ⟨rfl, ?_⟩
  simp [onSourceEnded, midSessionState, initState]

/-- C5 amended: a playback handle is added to the active set in the same
step that schedules its chunk, but natural end-of-playback removes nothing;
the only removal is cleanup force-stopping every handle and clearing the
whole set. -/
theorem C5_source_set_lifecycle :
    (∀ (t : ℚ) (now : Int) (d : ℚ) (st : SessionState),
      st.outputCtxOpen = true →
      (onmessage t now (audioMsg d) st).activeSources
          = st.activeSources ++ [st.sourceCounter]
        ∧ (onmessage t now (audioMsg d) st).startedAt
          = st.startedAt ++ [max st.nextStartTime t])
    ∧ (∀ (id : Nat) (st : SessionState), onSourceEnded id st = st)
    ∧ (∀ st : SessionState,
        (cleanup st).activeSources = []
          ∧ (cleanup st).stoppedSources = st.stoppedSources ++ st.activeSources) := by
  refine ⟨?_, fun _ _ => rfl, fun st => ⟨rfl, rfl⟩⟩
  intro t now d st h
  rw [onmessage_audio t now d st h]
  exact ⟨rfl, rfl⟩

/-- C5 witness: the first chunk on a fresh output context registers source
id 0 in the active set. -/
theorem C5_source_set_lifecycle_witness :
    (onmessage 0 0 (audioMsg 1)
        { initState with outputCtxOpen := true }).activeSources = [0] := by
  have h := C5_source_set_lifecycle.1 0 0 1
    { initState with outputCtxOpen := true } rfl
  simpa [initState] using h.1

/-- C6 counterexample: a portrait source of 512 × 1024 is encoded to a
1024 × 2048 bitmap, whose largest dimension exceeds the 1024-px clamp —
contrary to the claim that the clamp bounds every aspect ratio. -/
theorem C6_portrait_exceeds_clamp_ce :
    frameDims 512 1024 = some (1024, 2048) ∧ ¬(max 1024 2048 ≤ 1024) :=
  ⟨by decide, by decide⟩

/-- C6 amended: the canvas width is always exactly 1024 and the largest
dimension respects the 1024-px clamp only for landscape (or square) sources,
those with height at most width. -/
theorem C6_frame_clamp_landscape_only (vW vH w h : Nat)
    (hle : vH ≤ vW) (hdims : frameDims vW vH = some (w, h)) :
    w = 1024 ∧ h ≤ 1024 ∧ max w h ≤ 1024 := by
  unfold frameDims at hdims
  by_cases hc : vW ≠ 0 ∧ vH ≠ 0
  · rw [if_pos hc] at hdims
    have hw : w = 1024 := by
      have := congrArg (fun p => (Option.getD p (0, 0)).1) hdims
      simpa using this.symm
    have hh : h = 1024 * vH / vW := by
      have := congrArg (fun p => (Option.getD p (0, 0)).2) hdims
      simpa using this.symm
    have hb : 1024 * vH / vW ≤ 1024 := by
      calc 1024 * vH / vW ≤ 1024 * vW / vW :=
            Nat.div_le_div_right (Nat.mul_le_mul_left 1024 hle)
        _ = 1024 := Nat.mul_div_cancel 1024 (Nat.pos_of_ne_zero hc.1)
    refine ⟨hw, hh ▸ hb, ?_⟩
    have : h ≤ 1024 := hh ▸ hb
    omega
  · rw [if_neg hc] at hdims
    exact absurd hdims (by simp)

/-- C6 witness: a 1920 × 1080 landscape source stays within the clamp. -/
theorem C6_frame_clamp_landscape_only_witness :
    max 1024 576 ≤ 1024 :=
  (C6_frame_clamp_landscape_only 1920 1080 1024 576 (by decide) (by decide)).2.2

/-- C7 counterexample: with a whitespace-only (hence non-empty) pending
input buffer and output buffer "hi", turn completion appends only the model
entry — the non-empty input buffer is discarded, so the flush does not emit
both non-empty buffers and does not put a user entry first. -/
theorem C7_whitespace_buffer_dropped_ce :
    (onmessage 0 5 turnCompleteMsg
        { initState with currentInput := " ", currentOutput := "hi" }).transcriptions
      = [{ role := Role.model, text := "hi", timestamp := 5 }]
    ∧ ¬((onmessage 0 5 turnCompleteMsg
        { initState with currentInput := " ", currentOutput := "hi" }).transcriptions.length
          = 2)
    ∧ " " ≠ "" := by
  refine ⟨?_, ?_, by decide⟩
  · simp [onmessage, turnCompleteMsg, hasContent, initState]
  · simp [onmessage, turnCompleteMsg, hasContent, initState]

/-- C7 amended: turn completion flushes the buffers whose trimmed text is
non-empty (not every non-empty buffer) into transcript entries, the user
entry before the model entry, then clears both buffers and the thinking
flag; output deltas "Hel", "lo" followed by turn completion yield exactly
one model entry "Hello" with both buffers empty afterward. -/
theorem C7_turn_complete_flush :
    (∀ (t : ℚ) (now : Int) (m : ServerMessage) (st : SessionState),
      m.audioDuration = none → m.inputTranscriptionText = none →
      m.outputTranscriptionText = none → m.turnComplete = true →
      (onmessage t now m st).transcriptions
          = st.transcriptions
            ++ (if hasContent st.currentInput then
                  [{ role := Role.user, text := st.currentInput, timestamp := now }]
                else [])
            ++ (if hasContent st.currentOutput then
                  [{ role := Role.model, text := st.currentOutput, timestamp := now }]
                else [])
        ∧ (onmessage t now m st).currentInput = ""
        ∧ (onmessage t now m st).currentOutput = ""
        ∧ (onmessage t now m st).liveInput = ""
        ∧ (onmessage t now m st).liveOutput = ""
        ∧ (onmessage t now m st).isModelThinking = false)
    ∧ (∀ now : Int,
      (onmessage 0 now turnCompleteMsg
          (onmessage 0 0 (outputDeltaMsg "lo")
            (onmessage 0 0 (outputDeltaMsg "Hel") initState))).transcriptions
        = [{ role := Role.model, text := "Hello", timestamp := now }]
      ∧ (onmessage 0 now turnCompleteMsg
          (onmessage 0 0 (outputDeltaMsg "lo")
            (onmessage 0 0 (outputDeltaMsg "Hel") initState))).currentOutput = ""
      ∧ (onmessage 0 now turnCompleteMsg
          (onmessage 0 0 (outputDeltaMsg "lo")
            (onmessage 0 0 (outputDeltaMsg "Hel") initState))).currentInput = "") := by
  constructor
  · intro t now m st ha hi ho ht
    simp [onmessage, ha, hi, ho, ht]
  · intro now
    refine ⟨?_, ?_, ?_⟩ <;>
      simp [onmessage, outputDeltaMsg, turnCompleteMsg, hasContent, initState]

/-- C7 witness: buffers "He" and "Hi" flush to a user entry followed by a
model entry. -/
theorem C7_turn_complete_flush_witness :
    (onmessage 0 9 turnCompleteMsg
        { initState with currentInput := "He", currentOutput := "Hi" }).transcriptions
      = [{ role := Role.user, text := "He", timestamp := 9 },
         { role := Role.model, text := "Hi", timestamp := 9 }] := by
  have h := (C7_turn_complete_flush.1 0 9 turnCompleteMsg
    { initState with currentInput := "He", currentOutput := "Hi" } rfl rfl rfl rfl).1
  simpa [initState, hasContent] using h

/-- C8: for positive rates, every index the interpolation loop of resample
computes is strictly inside the input, and at a position where index + 1
would reach past the end the loop falls back to the last input sample; on
the branch where the rates differ by at least 1, resample is exactly that
loop. -/
theorem C8_resample_reads_in_bounds (data : List ℚ) (fromRate toRate : ℚ)
    (hf : 0 < fromRate) (ht : 0 < toRate) :
    (∀ i, i < resampleLength data.length fromRate toRate →
      resampleIndex fromRate toRate i < data.length
      ∧ (data.length ≤ resampleIndex fromRate toRate i + 1 →
          resampleAt data fromRate toRate i = data.getD (data.length - 1) 0))
    ∧ (1 ≤ |fromRate - toRate| →
        resample data fromRate toRate
          = (List.range (resampleLength data.length fromRate toRate)).map
              (resampleAt data fromRate toRate)) := by
  constructor
  · intro i hi
    have hlt := resampleIndex_lt data.length fromRate toRate hf ht i hi
    refine ⟨hlt, ?_⟩
    intro hge
    unfold resampleAt
    unfold resampleIndex at hlt hge
    rw [if_neg (by omega)]
    congr 1
    omega
  · intro habs
    unfold resample
    rw [if_neg (by push_neg; linarith [habs])]

/-- C8 witness: downsampling 4 samples from rate 3 to rate 1 reads only
index 0, inside the input. -/
theorem C8_resample_reads_in_bounds_witness :
    resampleIndex 3 1 0 < 4 := by
  have h := (C8_resample_reads_in_bounds [1, 2, 3, 4] 3 1
    (by norm_num) (by norm_num)).1 0 (by norm_num [resampleLength, round_eq])
  simpa using h.1

/-- C9: the float→int16 stage is scale-by-32768 with no clipping guard — a
sample whose scaled value is a representable int16 converts exactly, every
result lies in the int16 range and differs from the truncated scaled value
by a multiple of 2^16, and an out-of-range scaled value wraps modulo 2^16
rather than saturating: sample 1 wraps to -32768 and sample 3/2 (scaled
49152) wraps to -16384. -/
theorem C9_float_to_int16_wraps :
    (∀ (s : ℚ) (n : ℤ), -1 ≤ s → s ≤ 1 → s * 32768 = (n : ℚ) →
      -32768 ≤ n → n ≤ 32767 → floatToInt16 s = n)
    ∧ (∀ s : ℚ, -32768 ≤ floatToInt16 s ∧ floatToInt16 s ≤ 32767
        ∧ (jsTrunc (s * 32768) - floatToInt16 s) % 65536 = 0)
    ∧ floatToInt16 1 = -32768
    ∧ floatToInt16 (3/2) = -16384 := by
  refine ⟨?_, ?_, ?_, ?_⟩
  · intro s n h1 h2 hs hlo hhi
    unfold floatToInt16
    rw [hs, jsTrunc_intCast]
    unfold wrap16
    split <;> omega
  · intro s
    unfold floatToInt16 wrap16
    generalize jsTrunc (s * 32768) = x
    refine ⟨?_, ?_, ?_⟩ <;> (split <;> omega)
  · norm_num [floatToInt16, jsTrunc, wrap16]
  · norm_num [floatToInt16, jsTrunc, wrap16]

/-- C9 witness: sample 1/2 converts exactly to 16384. -/
theorem C9_float_to_int16_wraps_witness :
    floatToInt16 (1/2) = 16384 :=
  C9_float_to_int16_wraps.1 (1/2) 16384 (by norm_num) (by norm_num)
    (by norm_num) (by norm_num) (by norm_num)

/-- C10: no teardown path resets the playback cursor — cleanup, start (on
every branch) and the open callback all preserve it — so the first audio
chunk of a session started after a previous cleanup is scheduled at
`max staleCursor clock`, against the cursor inherited from the prior
session. -/
theorem C10_cleanup_keeps_stale_cursor :
    (∀ st : SessionState, (cleanup st).nextStartTime = st.nextStartTime)
    ∧ (∀ (env : StartEnv) (st : SessionState),
        (handleStartSession env st).nextStartTime = st.nextStartTime)
    ∧ (∀ st : SessionState, (onopen st).nextStartTime = st.nextStartTime)
    ∧ (∀ (t : ℚ) (now : Int) (d : ℚ) (st : SessionState),
        st.outputCtxOpen = true →
        (onmessage t now (audioMsg d) st).startedAt
          = st.startedAt ++ [max st.nextStartTime t]) := by
  refine ⟨fun st => rfl, ?_, fun st => rfl, ?_⟩
  · intro env st
    unfold handleStartSession
    split_ifs <;> rfl
  · intro t now d st h
    rw [onmessage_audio t now d st h]

/-- C10 witness: a stale cursor of 5 s survives cleanup, and with the output
clock at 1 s the first chunk of the next session is scheduled at 5 s. -/
theorem C10_cleanup_keeps_stale_cursor_witness :
    (cleanup { initState with nextStartTime := 5 }).nextStartTime = 5
    ∧ (onmessage 1 0 (audioMsg (1/2))
        { initState with nextStartTime := 5, outputCtxOpen := true }).startedAt
      = [(5 : ℚ)] := by
  constructor
  · rw [C10_cleanup_keeps_stale_cursor.1]
  · have h := C10_cleanup_keeps_stale_cursor.2.2.2 1 0 (1/2)
      { initState with nextStartTime := 5, outputCtxOpen := true } rfl
    have hm : max (5 : ℚ) 1 = 5 := max_eq_left (by norm_num)
    simpa [initState, hm] using h

end Ana
